/-
Verification of the Multi-Video-Analysis retrieval pipeline.

Shallow embedding of the Python services in `src/app/services/` into Lean:
pure functions become Lean functions over `String`, `List Char`, `Nat`, `Int`
and `ℚ` (Python floats are modelled as exact rationals: every numeric literal
appearing in the code and claims is an exact decimal, and no claim depends on
binary floating-point rounding); fallible code returns `Except`/`Option`;
calls to external collaborators (Gemini, YouTube caption API, yt-dlp, OpenAI,
the SQL database, ChromaDB/Qdrant and the LangChain text splitter) are
modelled as explicit environment records holding each call's outcome.
-/
import Mathlib

/-! ## A model of Python's `int(str)` conversion

`transcript_parser.py` converts timestamp components with Python's built-in
`int`, inside `try/except` blocks that turn any `ValueError` into the result
`0.0`.  `pyInt?` models `int` on a string: surrounding ASCII whitespace is
stripped, an optional single `+`/`-` sign is allowed, and the body must be a
non-empty digit sequence in which single underscores may appear strictly
between digits.  `none` models a raised `ValueError`.  (Non-ASCII digits and
non-ASCII whitespace, which CPython also accepts, do not occur in any input
considered here and are modelled as failures.) -/

def isPySpace (c : Char) : Bool :=
  c = ' ' || c = '\t' || c = '\n' || c = '\r' || c = '\x0b' || c = '\x0c'

/-- Numeric value of a list of decimal digits, most significant first. -/
def digitsVal (ds : List Char) : Nat :=
  ds.foldl (fun a c => 10 * a + (c.toNat - 48)) 0

/-- Validate the digit/underscore body after the optional sign: returns the
digits with underscores removed, or `none` if the body is malformed
(empty, leading/trailing/doubled underscore, or a non-digit character). -/
def pyIntBody? : List Char → Option (List Char)
  | [] => none
  | c :: rest => if c.isDigit then pyIntGo rest [c] else none
where
  pyIntGo : List Char → List Char → Option (List Char)
    | [], acc => some acc.reverse
    | '_' :: d :: rest, acc =>
        if d.isDigit then pyIntGo rest (d :: acc) else none
    | ['_'], _ => none
    | c :: rest, acc => if c.isDigit then pyIntGo rest (c :: acc) else none

/-- Model of Python `int(s)` for a character list; `none` = `ValueError`. -/
def pyIntChars? (cs : List Char) : Option Int :=
  let cs := (((cs.dropWhile isPySpace).reverse).dropWhile isPySpace).reverse
  match cs with
  | '+' :: rest => (pyIntBody? rest).map (fun ds => (digitsVal ds : Int))
  | '-' :: rest => (pyIntBody? rest).map (fun ds => -(digitsVal ds : Int))
  | _ => (pyIntBody? cs).map (fun ds => (digitsVal ds : Int))

/-- Model of Python `int(s)` on a string. -/
def pyInt? (s : String) : Option Int := pyIntChars? s.data

/-- Model of Python `str.split(sep)` for a one-character separator `sep`:
splits at every occurrence, keeping empty parts (`"".split(":") == [""]`). -/
def splitOnChar (sep : Char) : List Char → List (List Char)
  | [] => [[]]
  | c :: rest =>
      let r := splitOnChar sep rest
      if c = sep then [] :: r
      else
        match r with
        | h :: t => (c :: h) :: t
        | [] => [[c]]

/-- Model of Python `str.strip()` with no argument: remove leading and
trailing whitespace. -/
def pyStrip (s : String) : String :=
  String.mk
    (((s.data.dropWhile Char.isWhitespace).reverse.dropWhile
        Char.isWhitespace).reverse)

/-! ## `TranscriptParser.parse_timestamp_to_seconds` and `parse_vtt_timestamp`

Embedded from `src/app/services/transcript/transcript_parser.py`
(lines 53-64 and 96-116). -/

/-- `TranscriptParser.parse_timestamp_to_seconds` on the character list of the
input string: split on `:`; two parts are read as minutes and seconds, one
part as a bare integer; every other shape, and any failing `int` conversion
(a `ValueError` swallowed by the `except`), yields `0.0`. -/
def parseTimestampCore (cs : List Char) : ℚ :=
  match splitOnChar ':' cs with
  | [a, b] =>
      match pyIntChars? a, pyIntChars? b with
      | some minutes, some seconds => ((minutes * 60 + seconds : Int) : ℚ)
      | _, _ => 0
  | [a] =>
      match pyIntChars? a with
      | some v => (v : ℚ)
      | none => 0
  | _ => 0

/-- `TranscriptParser.parse_timestamp_to_seconds` (source lines 53-64). -/
def parse_timestamp_to_seconds (timestamp_str : String) : ℚ :=
  parseTimestampCore timestamp_str.data

/-- The time-component part of `parse_vtt_timestamp`: split `time_part` on
`:`; three components are hours/minutes/seconds, two are minutes/seconds; the
millisecond count `ms` (already converted) contributes `ms / 1000`.  Any other
component count, or a failing `int` conversion, yields `0.0`. -/
def vttTimeCore (time_part : List Char) (ms : Int) : ℚ :=
  match splitOnChar ':' time_part with
  | [a, b, c] =>
      match pyIntChars? a, pyIntChars? b, pyIntChars? c with
      | some hours, some minutes, some seconds =>
          ((hours * 3600 + minutes * 60 + seconds : Int) : ℚ) + (ms : ℚ) / 1000
      | _, _, _ => 0
  | [a, b] =>
      match pyIntChars? a, pyIntChars? b with
      | some minutes, some seconds =>
          ((minutes * 60 + seconds : Int) : ℚ) + (ms : ℚ) / 1000
      | _, _ => 0
  | _ => 0

/-- `TranscriptParser.parse_vtt_timestamp` on the character list: if the input
contains a `.`, it is split into `time_part` and `ms_part` (exactly one `.`;
more raise a `ValueError` on tuple unpacking, handled as `0.0`), and
`ms = int(ms_part[:3])` takes the first three characters; otherwise `ms = 0`.
-/
def parseVttCore (cs : List Char) : ℚ :=
  match splitOnChar '.' cs with
  | [time_part, ms_part] =>
      match pyIntChars? (ms_part.take 3) with
      | some ms => vttTimeCore time_part ms
      | none => 0
  | [time_part] => vttTimeCore time_part 0
  | _ => 0

/-- `TranscriptParser.parse_vtt_timestamp` (source lines 96-116). -/
def parse_vtt_timestamp (timestamp : String) : ℚ :=
  parseVttCore timestamp.data


/-! ## `VisualSearchService` (src/app/services/visual_search.py)

Frames live in a SQL table; the embedding models the table as a list of rows.
`image_url` (derived by `_get_frame_url`), `match_type` (the constant
`"temporal"`) and `matched_content` (a label string) are presentation-only
fields of the result dictionaries and are not modelled; no claim mentions
them. -/

namespace VisualSearch

/-- A row of the `frames` table (`src/app/models/frame.py`): the columns the
search code reads. -/
structure Frame where
  id : Nat
  video_id : Nat
  timestamp : ℚ
  path : String
deriving DecidableEq, Repr

/-- Ascending-timestamp order used by `ORDER BY Frame.timestamp`. -/
def frameTsLE (a b : Frame) : Prop := a.timestamp ≤ b.timestamp

instance : DecidableRel frameTsLE := fun a b =>
  inferInstanceAs (Decidable (a.timestamp ≤ b.timestamp))

/-- `VisualSearchService._get_frames_in_time_range` (lines 337-352): filter
the table by `video_id` and `start_time <= timestamp <= end_time`, order by
timestamp ascending, and apply `LIMIT max_frames` — but only when
`max_frames` is truthy (`if max_frames:`), so `None` and `0` mean no limit. -/
def _get_frames_in_time_range (db : List Frame) (video_id : Nat)
    (start_time end_time : ℚ) (max_frames : Option Nat) : List Frame :=
  let q := db.filter (fun f =>
    f.video_id == video_id && decide (start_time ≤ f.timestamp) &&
      decide (f.timestamp ≤ end_time))
  let sorted := List.insertionSort frameTsLE q
  match max_frames with
  | some k => if k ≠ 0 then sorted.take k else sorted
  | none => sorted

/-- One entry of `search_by_timestamp`'s `results` list. -/
structure TemporalResult where
  frame_id : Nat
  timestamp : ℚ
  image_path : String
  score : ℚ
  time_distance : ℚ
deriving DecidableEq, Repr

/-- Ascending-timestamp order used by `results.sort(key=...["timestamp"])`. -/
def trTsLE (a b : TemporalResult) : Prop := a.timestamp ≤ b.timestamp

instance : DecidableRel trTsLE := fun a b =>
  inferInstanceAs (Decidable (a.timestamp ≤ b.timestamp))

/-- The response dictionary of `search_by_timestamp`. -/
structure TimestampSearchResponse where
  video_id : Nat
  target_timestamp : ℚ
  time_window : ℚ
  total_results : Nat
  results : List TemporalResult
deriving DecidableEq, Repr

/-- The result entry built for frame `f` inside `search_by_timestamp`. -/
def mkTemporalResult (target time_window : ℚ) (f : Frame) : TemporalResult :=
  let time_distance := |f.timestamp - target|
  { frame_id := f.id, timestamp := f.timestamp, image_path := f.path,
    score := max 0 (1 - time_distance / (time_window / 2)),
    time_distance := time_distance }

/-- `VisualSearchService.search_by_timestamp` (lines 175-233).  Python's
`list.sort` is stable, modelled by `List.insertionSort`.  A call with
`time_window = 0` raises `ZeroDivisionError` in the source; theorems
therefore assume `0 < time_window`. -/
def search_by_timestamp (db : List Frame) (video_id : Nat)
    (timestamp : ℚ) (time_window : ℚ) (limit : Nat) : TimestampSearchResponse :=
  let start_time := max 0 (timestamp - time_window / 2)
  let end_time := timestamp + time_window / 2
  let frames := _get_frames_in_time_range db video_id start_time end_time (some limit)
  let results := frames.map (mkTemporalResult timestamp time_window)
  let results := List.insertionSort trTsLE results
  { video_id := video_id, target_timestamp := timestamp,
    time_window := time_window, total_results := results.length,
    results := results }

/-- One entry of the per-frame result dictionaries that
`search_by_text_query` accumulates; `payload` stands for the remaining
fields (`image_path`, `match_type`, `matched_content`, ...), which
deduplication carries along untouched. -/
structure SearchResult where
  frame_id : Nat
  score : ℚ
  payload : String
deriving DecidableEq, Repr

/-- Descending-score order used by `sorted(..., key=...["score"],
reverse=True)`. -/
def scoreGE (a b : SearchResult) : Prop := b.score ≤ a.score

instance : DecidableRel scoreGE := fun a b =>
  inferInstanceAs (Decidable (b.score ≤ a.score))

/-- One step of the `seen_frames` dict update in `_deduplicate_results`:
a Python dict keeps the position of the first insertion of a key even when
its value is replaced, so the accumulator is a list in first-occurrence
order whose entry for `r.frame_id` is replaced when `r.score` is strictly
greater. -/
def updateSeen (m : List SearchResult) (r : SearchResult) : List SearchResult :=
  match m with
  | [] => [r]
  | x :: xs =>
      if x.frame_id = r.frame_id then
        (if x.score < r.score then r else x) :: xs
      else x :: updateSeen xs r

/-- `VisualSearchService._deduplicate_results` (lines 391-400). -/
def _deduplicate_results (results : List SearchResult) : List SearchResult :=
  results.foldl updateSeen []

/-- Lines 102-104 of `search_by_text_query`: deduplicate, sort by score
descending (Python's `sorted` is stable), truncate to `limit`. -/
def rank_results (results : List SearchResult) (limit : Nat) : List SearchResult :=
  (List.insertionSort scoreGE (_deduplicate_results results)).take limit

end VisualSearch

/-! ## Transcript segments (shared data model)

`TranscriptSegment` is the `{"text": ..., "start": ..., "duration": ...}`
dictionary produced by every extraction source and consumed by the
chunker. -/

structure TranscriptSegment where
  text : String
  start : ℚ
  duration : ℚ
deriving DecidableEq, Repr

/-! ## `TranscriptExtractor.fetch_transcript`
(src/app/services/transcript/transcript_extractor.py, lines 41-83)

The four extraction methods call external systems (Gemini, the YouTube
caption API, yt-dlp); each outcome is a field of `FetchEnv`.  `none` models
the call raising an exception (caught by the surrounding `try/except`, which
moves on to the next method); `some segs` models a normal return.
`analyze_video_with_gemini` and `extract_subtitles_with_ytdlp` catch their
own exceptions and return `[]`, but the outer handlers make the `Option`
model faithful either way.  `fetch_transcript` is modelled after the video id
has been extracted from the URL (`extract_video_id` raises `ValueError` on an
unrecognised URL before any method runs; no claim concerns URL parsing). -/

namespace Transcript

/-- Metadata returned by `yt-dlp --dump-json` for
`generate_contextual_transcript`; `none` models a failed metadata fetch. -/
structure VideoMeta where
  title : String
  description : String
  duration : ℚ
deriving Repr

/-- Outcomes of the external calls made by the extractor. -/
structure FetchEnv where
  use_gemini : Bool
  gemini : Option (List TranscriptSegment)
  yt_api : Option (List TranscriptSegment)
  ytdlp : Option (List TranscriptSegment)
  metadata : Option VideoMeta
deriving Repr

/-- `if transcript: return transcript` — a method "wins" when it neither
raised nor returned an empty list. -/
def methodHit (outcome : Option (List TranscriptSegment)) :
    Option (List TranscriptSegment) :=
  match outcome with
  | some t => if t.isEmpty then none else some t
  | none => none

/-- `TranscriptExtractor.fetch_transcript` (lines 41-83): Gemini video
analysis (only when `use_gemini`), then the YouTube Transcript API, then
yt-dlp subtitle extraction; the first non-empty result is returned and a
failure falls through to the next method; if all three fail the function
returns `[]`. -/
def fetch_transcript (env : FetchEnv) : List TranscriptSegment :=
  match (if env.use_gemini then methodHit env.gemini else none) with
  | some t => t
  | none =>
      match methodHit env.yt_api with
      | some t => t
      | none =>
          match methodHit env.ytdlp with
          | some t => t
          | none => []

/-- Python `str.split()` with no argument: split on whitespace runs,
discarding empty pieces. -/
def pySplitWhitespace (s : String) : List String :=
  (s.split Char.isWhitespace).filter (fun w => w ≠ "")

/-- `TranscriptExtractor.generate_contextual_transcript` (lines 191-262):
build pseudo-segments from video metadata — an intro segment from the title,
optionally a segment quoting the first 100 words of the description when the
description is longer than 50 characters, and three generic segments at 10s,
`duration/2` and `duration - 10`.  Returns `[]` when the metadata fetch
fails.  `fetch_transcript` never calls this method. -/
def generate_contextual_transcript (env : FetchEnv) : List TranscriptSegment :=
  match env.metadata with
  | none => []
  | some md =>
      let intro : TranscriptSegment :=
        { text := "This video is titled \x27" ++ md.title ++
            "\x27 and covers the following content.",
          start := 0, duration := 4 }
      let descSegs : List TranscriptSegment :=
        if md.description ≠ "" ∧ 50 < md.description.length then
          let desc_text :=
            String.intercalate " " ((pySplitWhitespace md.description).take 100)
          [{ text := "The video description mentions: " ++ desc_text,
             start := 4, duration := 6 }]
        else []
      [intro] ++ descSegs ++
        [{ text := "The video continues with the main content and key discussion points.",
           start := 10, duration := 4 },
         { text := "Throughout the video, various topics and concepts are explained in detail.",
           start := md.duration / 2, duration := 4 },
         { text := "The video concludes with final thoughts and summary of the key points discussed.",
           start := md.duration - 10, duration := 4 }]

end Transcript

/-! ## `VectorStoreManager` (src/app/services/langchain/vector_store_manager.py)

The LangChain `RecursiveCharacterTextSplitter` and the ChromaDB write are
external collaborators, modelled by `IndexEnv`.  `processing_time` (wall
clock) is omitted from `ProcessingResult`; no claim mentions it. -/

namespace VectorStore

/-- Width-2 zero padding of Python's `f"{n:02d}"`. -/
def twoDigit (n : Int) : String :=
  (if 0 ≤ n ∧ n < 10 then "0" else "") ++ toString n

/-- `VectorStoreManager._format_timestamp` (lines 302-306): `MM:SS` from
seconds, using Python's floor division and nonnegative float modulo. -/
def _format_timestamp (seconds : ℚ) : String :=
  let minutes : Int := ⌊seconds / 60⌋
  let seconds_remainder : Int := ⌊seconds - 60 * (⌊seconds / 60⌋ : ℚ)⌋
  twoDigit minutes ++ ":" ++ twoDigit seconds_remainder

/-- A LangChain `Document` together with the `DocumentMetadata` fields the
manager attaches (lines 62-71); `page_content` holds the text. -/
structure DocumentRec where
  page_content : String
  video_id : Nat
  start_time : ℚ
  duration : ℚ
  timestamp : String
  source : String
  chunk_id : Option Nat
  approximate_start_time : Option ℚ
deriving DecidableEq, Repr

/-- Outcomes of the external collaborators used during indexing:
`split_text` is `RecursiveCharacterTextSplitter.split_text` of the configured
splitter, and `vector_store` is the outcome of the ChromaDB write in
`_create_vector_store` (`some path` on success, `none` on failure). -/
structure IndexEnv where
  split_text : String → List String
  vector_store : Option String

/-- `VectorStoreManager._create_documents_from_segments` (lines 224-252):
one document per segment whose stripped text is non-empty, carrying the
segment's exact start and duration. -/
def _create_documents_from_segments (video_id : Nat)
    (segments : List TranscriptSegment) : List DocumentRec :=
  segments.filterMap (fun s =>
    let text := pyStrip s.text
    if text = "" then none
    else some { page_content := text, video_id := video_id,
                start_time := s.start, duration := s.duration,
                timestamp := _format_timestamp s.start, source := "transcript",
                chunk_id := none, approximate_start_time := none })

/-- `VectorStoreManager._calculate_chunk_timestamp` (lines 293-300): linear
interpolation `(chunk_index / total_chunks) * total_duration`, where
`total_duration` is the last document's `start_time + duration`. -/
def _calculate_chunk_timestamp (chunk_index total_chunks : Nat)
    (documents : List DocumentRec) : ℚ :=
  match documents.getLast? with
  | none => 0
  | some d => ((chunk_index : ℚ) / (total_chunks : ℚ)) * (d.start_time + d.duration)

/-- `VectorStoreManager._create_chunks_from_documents` (lines 254-291): join
all document text with single spaces, split with the configured splitter, and
attach interpolated timestamp metadata to each chunk. -/
def _create_chunks_from_documents (env : IndexEnv) (video_id : Nat)
    (documents : List DocumentRec) : List DocumentRec :=
  if documents = [] then []
  else
    let full_text := String.intercalate " " (documents.map (fun d => d.page_content))
    let chunks := env.split_text full_text
    chunks.enum.map (fun ic =>
      let chunk_start := _calculate_chunk_timestamp ic.1 chunks.length documents
      { page_content := ic.2, video_id := video_id, start_time := chunk_start,
        duration := 0, timestamp := _format_timestamp chunk_start,
        source := "transcript_chunk", chunk_id := some ic.1,
        approximate_start_time := some chunk_start })

/-- The `ProcessingResult` dataclass (lines 49-59), minus the wall-clock
`processing_time`. -/
structure ProcessingResult where
  success : Bool
  message : String
  video_id : Nat
  segments_count : Nat
  chunks_count : Nat
  vectorstore_path : Option String
  error_message : Option String
deriving DecidableEq, Repr

/-- `VectorStoreManager.process_transcript` (lines 128-222): guard the empty
segment list, build documents, chunk them, write the vector store, and report
a structured result at every exit.  All fallible sub-steps return values
(`_create_vector_store` catches its own exceptions), so the final
`except Exception` branch of the source is unreachable in the model. -/
def process_transcript (env : IndexEnv) (video_id : Nat)
    (segments : List TranscriptSegment) : ProcessingResult :=
  if segments = [] then
    { success := false, message := "No transcript available for this video",
      video_id := video_id, segments_count := 0, chunks_count := 0,
      vectorstore_path := none, error_message := some "Empty segments list" }
  else
    let documents := _create_documents_from_segments video_id segments
    if documents = [] then
      { success := false, message := "No valid text found in segments",
        video_id := video_id, segments_count := segments.length,
        chunks_count := 0, vectorstore_path := none,
        error_message := some "No valid text content" }
    else
      let chunk_docs := _create_chunks_from_documents env video_id documents
      if chunk_docs = [] then
        { success := false, message := "Failed to create chunks from documents",
          video_id := video_id, segments_count := segments.length,
          chunks_count := 0, vectorstore_path := none,
          error_message := some "Chunking failed" }
      else
        match env.vector_store with
        | none =>
            { success := false, message := "Failed to create vector store",
              video_id := video_id, segments_count := segments.length,
              chunks_count := chunk_docs.length, vectorstore_path := none,
              error_message := some "Vector store creation failed" }
        | some path =>
            { success := true, message := "Transcript processed successfully",
              video_id := video_id, segments_count := segments.length,
              chunks_count := chunk_docs.length, vectorstore_path := some path,
              error_message := none }

end VectorStore

/-! ## `SectionGenerator.merge_sections`
(src/app/services/langchain/section_generator.py, lines 432-465) -/

namespace Sections

/-- The `SectionStrategy` enum (lines 21-25). -/
inductive SectionStrategy where
  | ai_analysis
  | time_based
  | fallback
deriving DecidableEq, Repr

/-- The `Section` dataclass (lines 39-47). -/
structure Section where
  title : String
  start_time : ℚ
  end_time : ℚ
  duration : ℚ
  confidence : ℚ
  strategy_used : SectionStrategy
deriving DecidableEq, Repr

/-- The groups visited by `for i in range(0, len(sections), step)` with the
slices `sections[i:i+step]`: successive blocks of `step` elements (the last
one possibly shorter).  `step = 0` would be a Python `ValueError` in `range`;
it cannot arise from `merge_sections` (there `step = n // max ≥ 1`). -/
def chunkList (step : Nat) (l : List Section) : List (List Section) :=
  if hl : l = [] then []
  else if hs : step = 0 then []
  else l.take step :: chunkList step (l.drop step)
termination_by l.length
decreasing_by
  simp only [List.length_drop]
  have : 0 < l.length := List.length_pos.mpr hl
  omega

/-- The merged section built from one non-empty group (`if group:` guards the
empty case): titled from the first member, spanning first start to last end,
with the minimum confidence of the group. -/
def mergeGroup (group : List Section) : Option Section :=
  match group with
  | [] => none
  | g0 :: rest =>
      let glast := (g0 :: rest).getLast (by simp)
      some { title := g0.title ++ " & More",
             start_time := g0.start_time,
             end_time := glast.end_time,
             duration := glast.end_time - g0.start_time,
             confidence := rest.foldl (fun m s => min m s.confidence) g0.confidence,
             strategy_used := g0.strategy_used }

/-- `SectionGenerator.merge_sections` (lines 432-465): return the list
unchanged when it is short enough, otherwise merge adjacent groups of
`sections_per_merge = len(sections) // max_sections` (floor division)
sections each. -/
def merge_sections (sections : List Section) (max_sections : Nat) : List Section :=
  if sections.length ≤ max_sections then sections
  else
    let sections_per_merge := sections.length / max_sections
    (chunkList sections_per_merge sections).filterMap mergeGroup

end Sections

/-! ## `RAGChatService` (src/app/services/rag_chat.py)

The OpenAI client, the embedding search and the SQL video lookup are external
collaborators, modelled by `ChatEnv`.  `datetime.now()` is modelled by a
single tick `env.now` (no claim depends on wall-clock values).  The model
additionally records, in `ChatOutcome.llm_called`, whether
`generate_response` (and hence the OpenAI API) was invoked — the call-count
instrumentation the spec asks to verify with a stub. -/

namespace RagChat

/-- The video columns `get_video_info` returns (`created_at` is wall clock
and omitted). -/
structure VideoInfo where
  id : Nat
  title : String
  url : String
deriving DecidableEq, Repr

/-- The metadata payload of one embedding-search hit: the keys the chat code
reads, each optional exactly as `metadata.get` treats them. -/
structure HitMeta where
  text : Option String
  start_time : Option ℚ
  end_time : Option ℚ
  section_id : Option Nat
  content_type : Option String
  timestamp : Option ℚ
  frame_id : Option Nat
  image_path : Option String
deriving DecidableEq, Repr

/-- One result of `search_text_embeddings`. -/
structure Hit where
  score : ℚ
  metadata : HitMeta
deriving DecidableEq, Repr

/-- One citation dictionary built by `extract_citations`; fields absent from
one of the two citation shapes (text vs visual) are `none`. -/
structure Citation where
  id : Nat
  type : String
  content : Option String
  timestamp : String
  relevance_score : ℚ
  section_id : Option Nat
  content_type : Option String
  frame_id : Option Nat
  image_path : Option String
deriving DecidableEq, Repr

/-- The `ChatMessage` dataclass (lines 17-22); `metadata` holds the
`{"citations": ...}` dictionary attached to assistant turns. -/
structure ChatMessage where
  role : String
  content : String
  time : Nat
  metadata : Option (List Citation)
deriving DecidableEq, Repr

/-- The `RetrievalContext` dataclass (lines 24-29). -/
structure RetrievalContext where
  text_results : List Hit
  visual_results : List Hit
  combined_score : ℚ
  video_info : VideoInfo
deriving DecidableEq, Repr

/-- Outcomes of the external calls made during one `chat` invocation:
`videos` is the SQL lookup, `text_search` the outcome of
`search_text_embeddings` (`.error` = the call raised), `llm` the outcome of
the OpenAI completion, `now` the clock tick. -/
structure ChatEnv where
  videos : Nat → Option VideoInfo
  text_search : Except String (List Hit)
  llm : Except String String
  now : Nat

/-- `self.relevance_threshold = 0.7` (line 48). -/
def relevance_threshold : ℚ := 7/10

/-- `RAGChatService.format_timestamp` (lines 53-57), the same `MM:SS`
conversion as the vector-store manager's. -/
def format_timestamp (seconds : ℚ) : String :=
  let minutes : Int := ⌊seconds / 60⌋
  let seconds_remainder : Int := ⌊seconds - 60 * (⌊seconds / 60⌋ : ℚ)⌋
  VectorStore.twoDigit minutes ++ ":" ++ VectorStore.twoDigit seconds_remainder

/-- `RAGChatService.get_video_info` (lines 59-70); `.error` models the
`ValueError` raised when the video is missing. -/
def get_video_info (env : ChatEnv) (video_id : Nat) : Except String VideoInfo :=
  match env.videos video_id with
  | some v => Except.ok v
  | none => Except.error ("Video " ++ toString video_id ++ " not found")

/-- `RAGChatService.retrieve_relevant_context` (lines 72-115): run the text
search, keep hits with `score >= relevance_threshold`, leave
`visual_results` empty (the source's `pass` branch), and look the video up;
any exception is re-raised wrapped as `"Error retrieving context: ..."`. -/
def retrieve_relevant_context (env : ChatEnv) (video_id : Nat)
    (include_visual : Bool) : Except String RetrievalContext :=
  match env.text_search with
  | Except.error e => Except.error ("Error retrieving context: " ++ e)
  | Except.ok hits =>
      let text_results := hits.filter (fun r => decide (relevance_threshold ≤ r.score))
      let visual_results : List Hit := []
      match get_video_info env video_id with
      | Except.error e => Except.error ("Error retrieving context: " ++ e)
      | Except.ok vi =>
          let combined_score : ℚ :=
            if text_results = [] then 0
            else (text_results.map (fun r => r.score)).sum / (text_results.length : ℚ)
          Except.ok { text_results := text_results, visual_results := visual_results,
                      combined_score := combined_score, video_info := vi }

/-- Python `str.capitalize()`: first character uppercased, the rest
lowercased. -/
def pyCap (s : String) : String :=
  match s.data with
  | [] => ""
  | c :: rest => String.mk (c.toUpper :: rest.map Char.toLower)

/-- Python `str.title()` on ASCII text: a letter after a non-letter is
uppercased, other letters lowercased. -/
def pyTitle (s : String) : String :=
  String.mk (pyTitleGo s.data true)
where
  pyTitleGo : List Char → Bool → List Char
    | [], _ => []
    | c :: cs, afterSep =>
        (if c.isAlpha then (if afterSep then c.toUpper else c.toLower) else c) ::
          pyTitleGo cs (!c.isAlpha)

/-- `content_type.replace('_', ' ')`. -/
def replaceUnderscore (s : String) : String :=
  String.mk (s.data.map (fun c => if c = '_' then ' ' else c))

/-- Python `l[-n:]`: the last `n` elements in order. -/
def lastN (n : Nat) (l : List ChatMessage) : List ChatMessage :=
  l.drop (l.length - n)

/-- The ` [MM:SS(-MM:SS)]` suffix built for a text hit in
`build_context_prompt` (lines 156-163). -/
def hitTimestampInfo (m : HitMeta) : String :=
  match m.start_time with
  | none => ""
  | some st =>
      " [" ++ format_timestamp st ++
        (match m.end_time with
         | some et => "-" ++ format_timestamp et
         | none => "") ++ "]"

/-- The fixed system-prompt text of `build_context_prompt` (lines 125-135). -/
def systemPromptText (title : String) : String :=
  "You are an AI assistant that helps users understand and explore video content. \n" ++
  "You have access to information from the video titled \"" ++ title ++ "\".\n\n" ++
  "Your responses should be:\n" ++
  "1. Accurate and based on the provided context\n" ++
  "2. Include specific timestamps when referencing content\n" ++
  "3. Conversational and helpful\n" ++
  "4. Cite sources when making claims\n\n" ++
  "When providing timestamps, use the format [MM:SS] and always include them when referencing specific content.\n"

/-- `RAGChatService.build_context_prompt` (lines 117-194). -/
def build_context_prompt (query : String) (context : RetrievalContext)
    (conversation_history : List ChatMessage) : String :=
  let history_context :=
    String.join ((lastN 3 conversation_history).map
      (fun m => pyCap m.role ++ ": " ++ m.content ++ "\n"))
  let system_prompt := systemPromptText context.video_info.title ++
    (if conversation_history ≠ [] ∧ history_context ≠ "" then
       "\nRecent conversation:\n" ++ history_context ++ "\n"
     else "")
  let text_lines : List String :=
    if context.text_results ≠ [] then
      "RELEVANT VIDEO CONTENT:" ::
        (context.text_results.enum.map (fun ir =>
          toString (ir.1 + 1) ++ ". " ++
            pyTitle (replaceUnderscore ((ir.2.metadata.content_type).getD "content")) ++
            hitTimestampInfo ir.2.metadata ++ ": " ++ (ir.2.metadata.text).getD ""))
    else []
  let visual_lines : List String :=
    if context.visual_results ≠ [] then
      "\nRELEVANT VISUAL CONTENT:" ::
        (context.visual_results.enum.map (fun ir =>
          toString (ir.1 + 1) ++ ". Frame at [" ++
            format_timestamp ((ir.2.metadata.timestamp).getD 0) ++
            "]: Visual content from video"))
    else []
  let full_context := String.intercalate "\n" (text_lines ++ visual_lines)
  system_prompt ++ "\n\n" ++ full_context ++ "\n\nUser Query: " ++ query ++
    "\n\nPlease provide a helpful response based on the video content above. Include timestamps when referencing specific parts of the video."

/-- `RAGChatService.generate_response` (lines 196-214): return the model's
text stripped, or — when the OpenAI call raises — the literal apology string
carrying the error. -/
def generate_response (env : ChatEnv) (prompt : String) : String :=
  match env.llm with
  | Except.ok content => pyStrip content
  | Except.error e =>
      "I apologize, but I\x27m having trouble generating a response right now. Error: " ++ e

/-- `RAGChatService.extract_citations` (lines 216-261): one citation per
text hit (ids from 1) followed by one per visual hit (ids continuing). -/
def extract_citations (response : String) (context : RetrievalContext) :
    List Citation :=
  let text_cits := context.text_results.enum.map (fun ir =>
    let m := ir.2.metadata
    let timestamp_info :=
      match m.start_time with
      | none => "Unknown time"
      | some st =>
          format_timestamp st ++
            (match m.end_time with
             | some et => "-" ++ format_timestamp et
             | none => "")
    { id := ir.1 + 1, type := "text", content := some (m.text.getD ""),
      timestamp := timestamp_info, relevance_score := ir.2.score,
      section_id := m.section_id,
      content_type := some (m.content_type.getD "content"),
      frame_id := none, image_path := none })
  let n := context.text_results.length
  let vis_cits := context.visual_results.enum.map (fun ir =>
    let m := ir.2.metadata
    { id := ir.1 + n + 1, type := "visual", content := none,
      timestamp := format_timestamp (m.timestamp.getD 0),
      relevance_score := ir.2.score, section_id := none, content_type := none,
      frame_id := m.frame_id, image_path := m.image_path })
  text_cits ++ vis_cits

/-- The templated "no relevant content found" answer (lines 288-291),
whitespace included. -/
def no_results_response (query title : String) : String :=
  "I couldn\x27t find specific information about \"" ++ query ++
  "\" in this video. \n                \nThe video \"" ++ title ++
  "\" might not contain content directly related to your question. \n" ++
  "Try asking about different topics or being more specific about what you\x27re looking for."

/-- Lines 327-329 of `chat`: keep only the last 10 messages when the
history exceeds 10 (`history[-10:]`). -/
def truncateHistory (h : List ChatMessage) : List ChatMessage :=
  if 10 < h.length then h.drop (h.length - 10) else h

/-- The store update `self.conversations[cid] = stored`. -/
def updateStore (conversations : String → List ChatMessage) (cid : String)
    (stored : List ChatMessage) : String → List ChatMessage :=
  fun c => if c = cid then stored else conversations c

theorem updateStore_same (conversations : String → List ChatMessage)
    (cid : String) (stored : List ChatMessage) :
    updateStore conversations cid stored cid = stored := if_pos rfl

theorem updateStore_other (conversations : String → List ChatMessage)
    (cid : String) (stored : List ChatMessage) (c : String) (hc : c ≠ cid) :
    updateStore conversations cid stored c = conversations c := if_neg hc

/-- What one `chat` call produces: the `ChatResponse` fields plus the
resulting conversation store and the LLM-call flag. -/
structure ChatOutcome where
  response : String
  citations : List Citation
  context_used : RetrievalContext
  conversation_id : String
  conversations : String → List ChatMessage
  llm_called : Bool

/-- `RAGChatService.chat` (lines 263-347).  `conversations` maps every
conversation id to its stored history (absent ids to `[]`, matching
`.get(conversation_id, [])`).  The only raising operation inside the `try`
block is `retrieve_relevant_context`; its failure reaches the
`except Exception` handler, which rebuilds a context via `get_video_info` —
and that call re-raises (`Except.error`) when the video is missing, escaping
`chat` altogether.  (By the time any exception can occur the local
`conversation_id` has been made truthy, so the handler's
`conversation_id or f"error_..."` always yields `cid` and the `error_`
branch is dead code.) -/
def chat (env : ChatEnv) (conversations : String → List ChatMessage)
    (query : String) (video_id : Nat) (conversation_id : Option String)
    (include_visual : Bool) : Except String ChatOutcome :=
  let cid :=
    match conversation_id with
    | some c =>
        if c = "" then "chat_" ++ toString video_id ++ "_" ++ toString env.now else c
    | none => "chat_" ++ toString video_id ++ "_" ++ toString env.now
  let conversation_history := conversations cid
  match retrieve_relevant_context env video_id include_visual with
  | Except.error e =>
      match get_video_info env video_id with
      | Except.error ve => Except.error ve
      | Except.ok vi =>
          Except.ok
            { response := "I encountered an error while processing your question: " ++ e,
              citations := [],
              context_used := { text_results := [], visual_results := [],
                                combined_score := 0, video_info := vi },
              conversation_id := cid, conversations := conversations,
              llm_called := false }
  | Except.ok context =>
      let step : String × List Citation × Bool :=
        if context.text_results = [] ∧ context.visual_results = [] then
          (no_results_response query context.video_info.title, [], false)
        else
          let prompt := build_context_prompt query context conversation_history
          let response_text := generate_response env prompt
          (response_text, extract_citations response_text context, true)
      let response_text := step.1
      let citations := step.2.1
      let llm_called := step.2.2
      let user_message : ChatMessage :=
        { role := "user", content := query, time := env.now, metadata := none }
      let assistant_message : ChatMessage :=
        { role := "assistant", content := response_text, time := env.now,
          metadata := some citations }
      let extended := conversations cid ++ [user_message, assistant_message]
      let stored := truncateHistory extended
      Except.ok
        { response := response_text, citations := citations,
          context_used := context, conversation_id := cid,
          conversations := updateStore conversations cid stored,
          llm_called := llm_called }

end RagChat

/-- Five adjacent one-second sections, the failing input for C8. -/
def fiveSections : List Sections.Section :=
  [{ title := "a", start_time := 0, end_time := 1, duration := 1,
     confidence := 1, strategy_used := Sections.SectionStrategy.ai_analysis },
   { title := "b", start_time := 1, end_time := 2, duration := 1,
     confidence := 1, strategy_used := Sections.SectionStrategy.ai_analysis },
   { title := "c", start_time := 2, end_time := 3, duration := 1,
     confidence := 1, strategy_used := Sections.SectionStrategy.ai_analysis },
   { title := "d", start_time := 3, end_time := 4, duration := 1,
     confidence := 1, strategy_used := Sections.SectionStrategy.ai_analysis },
   { title := "e", start_time := 4, end_time := 5, duration := 1,
     confidence := 1, strategy_used := Sections.SectionStrategy.ai_analysis }]

/-- An environment in which Gemini, the caption API and yt-dlp all fail but
video metadata is available, so the contextual-synthesis method would
produce a non-empty pseudo-transcript. -/
def deadFallbackEnv : Transcript.FetchEnv :=
  { use_gemini := true, gemini := none, yt_api := none, ytdlp := some [],
    metadata := some { title := "T", description := "", duration := 300 } }

/-- A concrete segment and environment exercising the first link of the
chain. -/
def geminiWinEnv : Transcript.FetchEnv :=
  { use_gemini := true,
    gemini := some [{ text := "hello", start := 0, duration := 30 }],
    yt_api := none, ytdlp := none, metadata := none }

/-- An environment whose splitter produces two chunks (as a small chunk size
makes `RecursiveCharacterTextSplitter` do on `"hello world"`). -/
def splitTwoEnv : VectorStore.IndexEnv :=
  { split_text := fun _ => ["hello", "world"],
    vector_store := some "storage/chroma/video_7" }

/-- A transcript whose *last* segment has empty text (dropped during document
building) but a large `start + duration`. -/
def c5Segments : List TranscriptSegment :=
  [{ text := "hello world", start := 0, duration := 2 },
   { text := "", start := 100, duration := 50 }]

/-- An environment whose splitter returns the corpus as a single chunk. -/
def splitOneEnv : VectorStore.IndexEnv :=
  { split_text := fun t => [t], vector_store := some "storage/chroma/video_7" }

/-- The single document of the C5 witness. -/
def c5WitnessDoc : VectorStore.DocumentRec :=
  { page_content := "hello world", video_id := 7, start_time := 0,
    duration := 2, timestamp := "00:00", source := "transcript",
    chunk_id := none, approximate_start_time := none }

/-- A one-document list for the C5 witness. -/
def c5WitnessDocs : List VectorStore.DocumentRec := [c5WitnessDoc]

/-- Frames at timestamps 55, 65, 75 for video 1 — the spec's
timestamp-window example. -/
def c1Frames : List VisualSearch.Frame :=
  [{ id := 1, video_id := 1, timestamp := 55, path := "/path1.jpg" },
   { id := 2, video_id := 1, timestamp := 65, path := "/path2.jpg" },
   { id := 3, video_id := 1, timestamp := 75, path := "/path3.jpg" }]

instance : IsTotal VisualSearch.Frame VisualSearch.frameTsLE :=
  ⟨fun a b => le_total a.timestamp b.timestamp⟩

instance : IsTrans VisualSearch.Frame VisualSearch.frameTsLE :=
  ⟨fun _ _ _ hab hbc => le_trans hab hbc⟩

instance : IsTotal VisualSearch.TemporalResult VisualSearch.trTsLE :=
  ⟨fun a b => le_total a.timestamp b.timestamp⟩

instance : IsTrans VisualSearch.TemporalResult VisualSearch.trTsLE :=
  ⟨fun _ _ _ hab hbc => le_trans hab hbc⟩

instance : IsTotal VisualSearch.SearchResult VisualSearch.scoreGE :=
  ⟨fun a b => le_total b.score a.score⟩

instance : IsTrans VisualSearch.SearchResult VisualSearch.scoreGE :=
  ⟨fun _ _ _ hab hbc => le_trans hbc hab⟩

/-- The deduplication example from the spec: two entries for frame 1
(scores 0.8 and 0.95) and one for frame 2 (score 0.7). -/
def c7Example : List VisualSearch.SearchResult :=
  [{ frame_id := 1, score := 8/10, payload := "first" },
   { frame_id := 1, score := 95/100, payload := "second" },
   { frame_id := 2, score := 7/10, payload := "third" }]

/-- A video row for the chat fixtures. -/
def wVideo : RagChat.VideoInfo := { id := 1, title := "Demo", url := "http://v" }

/-- Metadata of a relevant text hit. -/
def demoMeta : RagChat.HitMeta :=
  { text := some "intro", start_time := some 0, end_time := some 60,
    section_id := some 1, content_type := some "section_title",
    timestamp := none, frame_id := none, image_path := none }

/-- A text hit above the relevance threshold. -/
def demoHit : RagChat.Hit := { score := 9/10, metadata := demoMeta }

/-- Chat environment: video present, search returns nothing, LLM healthy. -/
def okEmptyEnv : RagChat.ChatEnv :=
  { videos := fun _ => some wVideo, text_search := Except.ok [],
    llm := Except.ok "fine", now := 0 }

/-- Chat environment: the video row is missing. -/
def noVideoEnv : RagChat.ChatEnv :=
  { videos := fun _ => none, text_search := Except.ok [],
    llm := Except.ok "fine", now := 0 }

/-- Chat environment: the embedding search raises. -/
def searchFailEnv : RagChat.ChatEnv :=
  { videos := fun _ => some wVideo, text_search := Except.error "boom",
    llm := Except.ok "fine", now := 0 }

/-- Chat environment: one relevant hit, but the OpenAI call raises. -/
def llmFailEnv : RagChat.ChatEnv :=
  { videos := fun _ => some wVideo, text_search := Except.ok [demoHit],
    llm := Except.error "rate limit", now := 0 }

/-- The empty conversation store. -/
def emptyState : String → List RagChat.ChatMessage := fun _ => []

/-- A store holding one prior message under `"conv1"`. -/
def seededState : String → List RagChat.ChatMessage := fun c =>
  if c = "conv1"
  then [{ role := "user", content := "old", time := 0, metadata := none }]
  else []

/-- The user turn `chat` appends to the conversation history. -/
def userTurn (query : String) (now : Nat) : RagChat.ChatMessage :=
  { role := "user", content := query, time := now, metadata := none }

/-- The assistant turn `chat` appends to the conversation history. -/
def assistantTurn (content : String) (citations : List RagChat.Citation)
    (now : Nat) : RagChat.ChatMessage :=
  { role := "assistant", content := content, time := now,
    metadata := some citations }

/-! # Claim theorems -/

/-! ## C6 — empty segment list -/

/-- **C6**: for every video id (and any splitter/store environment),
`process_transcript` called with an empty segment list returns the explicit
"no transcript" result: `success = False`, `chunks_count = 0`, and the
corresponding message — without raising. -/
theorem c6_process_transcript_empty (env : VectorStore.IndexEnv) (video_id : Nat) :
    (VectorStore.process_transcript env video_id []).success = false ∧
    (VectorStore.process_transcript env video_id []).chunks_count = 0 ∧
    (VectorStore.process_transcript env video_id []).message =
      "No transcript available for this video" ∧
    (VectorStore.process_transcript env video_id []).error_message =
      some "Empty segments list" :=
  ⟨rfl, rfl, rfl, rfl⟩

/-! ## C8 — `merge_sections` exceeds `max_sections` -/

/-- **C8**: on five sections with `max_sections = 2`, `merge_sections` uses
floor-sized batches of `5 // 2 = 2` (the claim and the spec say
`ceil(5/2) = 3`) and therefore produces **3** merged sections — more than
`max_sections`, contradicting the function's own docstring ("Maximum number
of sections after merging").  Batch boundaries and time spans are as the
floor grouping dictates. -/
theorem c8_merge_sections_exceeds_max :
    (Sections.merge_sections fiveSections 2).length = 3 ∧
    2 < (Sections.merge_sections fiveSections 2).length ∧
    (Sections.chunkList (fiveSections.length / 2) fiveSections).map List.length
      = [2, 2, 1] ∧
    (Sections.merge_sections fiveSections 2).map
        (fun s => (s.title, s.start_time, s.end_time))
      = [("a & More", 0, 2), ("c & More", 2, 4), ("e & More", 4, 5)] := by
  refine ⟨?_, ?_, ?_, ?_⟩ <;>
    simp [Sections.merge_sections, Sections.chunkList, Sections.mergeGroup,
      fiveSections]

/-! ## C2 — transcript fallback chain -/

/-- **C2 counterexample**: with all three implemented methods failing,
`fetch_transcript` returns `[]` even though `generate_contextual_transcript`
would return a non-empty segment list — so contextual synthesis is *not* a
member of the fallback chain, contradicting the claimed four-method chain
("the first method returning a non-empty segment list wins"). -/
theorem c2_contextual_not_in_chain :
    Transcript.fetch_transcript deadFallbackEnv = [] ∧
    0 < (Transcript.generate_contextual_transcript deadFallbackEnv).length :=
  ⟨rfl, by decide⟩

/-- **C2 (amended)**: `fetch_transcript` is a three-method ordered fallback
chain — Gemini video analysis (when initialised), the platform caption API,
then yt-dlp subtitle extraction.  The first method that neither raises nor
returns an empty list wins; a failure (raise or empty result) of one method
never aborts the chain; and when all three fail the function returns `[]`
rather than raising.  Contextual synthesis is implemented but never
invoked. -/
theorem c2_fetch_transcript_chain (env : Transcript.FetchEnv) :
    (∀ t, env.use_gemini = true → env.gemini = some t → t ≠ [] →
        Transcript.fetch_transcript env = t) ∧
    (∀ t, (env.use_gemini = false ∨ env.gemini = none ∨ env.gemini = some []) →
        env.yt_api = some t → t ≠ [] → Transcript.fetch_transcript env = t) ∧
    (∀ t, (env.use_gemini = false ∨ env.gemini = none ∨ env.gemini = some []) →
        (env.yt_api = none ∨ env.yt_api = some []) →
        env.ytdlp = some t → t ≠ [] → Transcript.fetch_transcript env = t) ∧
    ((env.use_gemini = false ∨ env.gemini = none ∨ env.gemini = some []) →
        (env.yt_api = none ∨ env.yt_api = some []) →
        (env.ytdlp = none ∨ env.ytdlp = some []) →
        Transcript.fetch_transcript env = []) := by
  have hne : ∀ t : List TranscriptSegment, t ≠ [] → t.isEmpty = false := by
    intro t ht
    cases t with
    | nil => exact absurd rfl ht
    | cons a l => rfl
  refine ⟨?_, ?_, ?_, ?_⟩
  · intro t hg hsome hnil
    simp [Transcript.fetch_transcript, Transcript.methodHit, hg, hsome, hne t hnil]
  · intro t hfail hsome hnil
    rcases hfail with h | h | h <;>
      simp [Transcript.fetch_transcript, Transcript.methodHit, h, hsome, hne t hnil]
  · intro t hfail1 hfail2 hsome hnil
    rcases hfail1 with h | h | h <;> rcases hfail2 with h2 | h2 <;>
      simp [Transcript.fetch_transcript, Transcript.methodHit, h, h2, hsome,
        hne t hnil]
  · intro hfail1 hfail2 hfail3
    rcases hfail1 with h | h | h <;> rcases hfail2 with h2 | h2 <;>
      rcases hfail3 with h3 | h3 <;>
      simp [Transcript.fetch_transcript, Transcript.methodHit, h, h2, h3]

/-- Witness for `c2_fetch_transcript_chain` at a concrete environment. -/
theorem c2_fetch_transcript_chain_witness :
    geminiWinEnv.use_gemini = true ∧
    geminiWinEnv.gemini = some [{ text := "hello", start := 0, duration := 30 }] ∧
    Transcript.fetch_transcript geminiWinEnv
      = [{ text := "hello", start := 0, duration := 30 }] :=
  ⟨rfl, rfl,
    (c2_fetch_transcript_chain geminiWinEnv).1
      [{ text := "hello", start := 0, duration := 30 }] rfl rfl (by decide)⟩

/-! ## C5 — interpolated chunk timestamps -/

/-- **C5 counterexample**: with `c5Segments` and a two-chunk splitter,
indexing succeeds with two chunks whose `approximate_start_time`s are
`[0, 1]` — interpolated against the last *retained document*'s
`start + duration = 2` — whereas the claim's formula, using the last
*segment*'s `start + duration = 150`, demands `(1/2) * 150 = 75` for the
second chunk; and `1 ≠ 75`. -/
theorem c5_chunk_timestamp_counterexample :
    (VectorStore.process_transcript splitTwoEnv 7 c5Segments).success = true ∧
    (VectorStore.process_transcript splitTwoEnv 7 c5Segments).chunks_count = 2 ∧
    ((VectorStore._create_chunks_from_documents splitTwoEnv 7
        (VectorStore._create_documents_from_segments 7 c5Segments)).map
      (fun d => d.approximate_start_time)) = [some 0, some 1] ∧
    (c5Segments.getLast?.map (fun s => (1 : ℚ) / 2 * (s.start + s.duration))
      = some 75) ∧
    (1 : ℚ) ≠ 75 := by
  refine ⟨rfl, rfl, ?_, ?_, by norm_num⟩
  · rw [show ((VectorStore._create_chunks_from_documents splitTwoEnv 7
        (VectorStore._create_documents_from_segments 7 c5Segments)).map
          (fun d => d.approximate_start_time))
      = [some (((0:Nat) : ℚ) / ((2:Nat) : ℚ) * ((0:ℚ) + 2)),
         some (((1:Nat) : ℚ) / ((2:Nat) : ℚ) * ((0:ℚ) + 2))] from rfl]
    norm_num
  · rw [show c5Segments.getLast? = some { text := "", start := 100, duration := 50 }
      from rfl]
    simp only [Option.map_some', Option.some.injEq]
    norm_num

/-- **C5 (amended)**: each of the `n` chunks produced from a non-empty
document list gets `approximate_start_time = (i / n) * total`, where `total`
is the **last retained document**'s `start_time + duration` (documents are
the segments with non-empty stripped text, so this is the last
non-empty-text segment, not necessarily the last segment); in particular a
single chunk gets `approximate_start_time = 0.0`. -/
theorem c5_chunk_timestamp_correct (env : VectorStore.IndexEnv) (video_id : Nat)
    (documents : List VectorStore.DocumentRec) (d : VectorStore.DocumentRec)
    (hlast : documents.getLast? = some d) :
    (∀ (i : Nat) (c : VectorStore.DocumentRec),
        (VectorStore._create_chunks_from_documents env video_id documents)[i]?
        = some c →
        c.approximate_start_time = some ((i : ℚ) /
          (((VectorStore._create_chunks_from_documents env video_id documents).length : ℚ))
            * (d.start_time + d.duration))) ∧
    (∀ c, VectorStore._create_chunks_from_documents env video_id documents = [c] →
        c.approximate_start_time = some 0) := by
  have hne : documents ≠ [] := by
    intro h
    rw [h] at hlast
    exact Option.noConfusion hlast
  have hmain : ∀ (i : Nat) (c : VectorStore.DocumentRec),
      (VectorStore._create_chunks_from_documents env video_id documents)[i]?
        = some c →
      c.approximate_start_time = some ((i : ℚ) /
        (((VectorStore._create_chunks_from_documents env video_id documents).length : ℚ))
          * (d.start_time + d.duration)) := by
    intro i c hc
    simp only [VectorStore._create_chunks_from_documents, if_neg hne] at hc ⊢
    simp only [List.getElem?_map, List.getElem?_enum] at hc
    cases hsplit : (env.split_text (String.intercalate " "
        (documents.map (fun d => d.page_content))))[i]? with
    | none =>
        rw [hsplit] at hc
        exact Option.noConfusion hc
    | some chunk =>
        rw [hsplit] at hc
        simp only [Option.map_some'] at hc
        obtain rfl := Option.some.inj hc
        simp only [List.length_map, List.enum_length,
          VectorStore._calculate_chunk_timestamp, hlast]
  refine ⟨hmain, ?_⟩
  intro c hc
  have h0 := hmain 0 c (by rw [hc]; rfl)
  rw [hc] at h0
  simpa using h0

/-- Witness for `c5_chunk_timestamp_correct`: a single chunk gets
`approximate_start_time = 0.0`. -/
theorem c5_chunk_timestamp_correct_witness :
    c5WitnessDocs.getLast? = some c5WitnessDoc ∧
    (∀ c, VectorStore._create_chunks_from_documents splitOneEnv 7 c5WitnessDocs
        = [c] → c.approximate_start_time = some 0) :=
  ⟨rfl,
    (c5_chunk_timestamp_correct splitOneEnv 7 c5WitnessDocs c5WitnessDoc rfl).2⟩

/-! ## C10 — total timestamp parsing -/

theorem splitOnChar_ne_nil (sep : Char) (cs : List Char) :
    splitOnChar sep cs ≠ [] := by
  induction cs with
  | nil => simp [splitOnChar]
  | cons c rest ih =>
      simp only [splitOnChar]
      by_cases hc : c = sep
      · simp [hc]
      · rw [if_neg hc]
        cases h : splitOnChar sep rest with
        | nil => exact absurd h ih
        | cons hd tl => simp

theorem splitOnChar_of_not_mem (sep : Char) (a : List Char) (ha : sep ∉ a) :
    splitOnChar sep a = [a] := by
  induction a with
  | nil => rfl
  | cons c rest ih =>
      have hc : ¬(c = sep) := fun h => ha (h ▸ List.mem_cons_self c rest)
      have hrest : sep ∉ rest := fun h => ha (List.mem_cons_of_mem _ h)
      simp only [splitOnChar, ih hrest]
      rw [if_neg hc]

theorem splitOnChar_append (sep : Char) (a b : List Char) (ha : sep ∉ a) :
    splitOnChar sep (a ++ sep :: b) = a :: splitOnChar sep b := by
  induction a with
  | nil => simp [splitOnChar]
  | cons c rest ih =>
      have hc : ¬(c = sep) := fun h => ha (h ▸ List.mem_cons_self c rest)
      have hrest : sep ∉ rest := fun h => ha (List.mem_cons_of_mem _ h)
      simp only [List.cons_append, splitOnChar, List.append_eq, ih hrest]
      rw [if_neg hc]

/-- **C10**: both timestamp converters are total functions of the input
string (the embedding returns a value for every `String`; the `try/except`
blocks turn every conversion error into `0.0`), and compute exactly:

* `parse_timestamp_to_seconds`: `minutes*60 + seconds` on `M:SS`-shaped
  input, the integer value on bare-number input, and `0.0` whenever the
  colon count or an `int` conversion fails;
* `parse_vtt_timestamp`: on `time.mmm` the millisecond fraction
  `int(ms_part[:3]) / 1000` is added to the time part, where the time part
  yields `H*3600 + M*60 + S` for three components and `M*60 + S` for two,
  and every malformed shape (two or more dots, a failing millisecond or
  component conversion, a colon count other than 2 or 3) yields `0.0`. -/
theorem c10_timestamp_parsing_spec :
    (∀ (a b : List Char) (m s : Int), pyIntChars? a = some m →
        pyIntChars? b = some s → ':' ∉ a → ':' ∉ b →
        parse_timestamp_to_seconds (String.mk (a ++ ':' :: b))
          = ((m * 60 + s : Int) : ℚ)) ∧
    (∀ (a : List Char) (v : Int), pyIntChars? a = some v → ':' ∉ a →
        parse_timestamp_to_seconds (String.mk a) = (v : ℚ)) ∧
    (∀ cs : List Char, 2 < (splitOnChar ':' cs).length →
        parse_timestamp_to_seconds (String.mk cs) = 0) ∧
    (∀ (cs a b : List Char), splitOnChar ':' cs = [a, b] →
        pyIntChars? a = none ∨ pyIntChars? b = none →
        parse_timestamp_to_seconds (String.mk cs) = 0) ∧
    (∀ (cs a : List Char), splitOnChar ':' cs = [a] → pyIntChars? a = none →
        parse_timestamp_to_seconds (String.mk cs) = 0) ∧
    (∀ (t msp : List Char) (ms : Int), '.' ∉ t → '.' ∉ msp →
        pyIntChars? (msp.take 3) = some ms →
        parse_vtt_timestamp (String.mk (t ++ '.' :: msp)) = vttTimeCore t ms) ∧
    (∀ t : List Char, '.' ∉ t → parse_vtt_timestamp (String.mk t)
        = vttTimeCore t 0) ∧
    (∀ cs : List Char, 2 < (splitOnChar '.' cs).length →
        parse_vtt_timestamp (String.mk cs) = 0) ∧
    (∀ (t msp : List Char), '.' ∉ t → '.' ∉ msp →
        pyIntChars? (msp.take 3) = none →
        parse_vtt_timestamp (String.mk (t ++ '.' :: msp)) = 0) ∧
    (∀ (a b c : List Char) (h m s ms : Int), pyIntChars? a = some h →
        pyIntChars? b = some m → pyIntChars? c = some s →
        ':' ∉ a → ':' ∉ b → ':' ∉ c →
        vttTimeCore (a ++ ':' :: b ++ ':' :: c) ms
          = ((h * 3600 + m * 60 + s : Int) : ℚ) + (ms : ℚ) / 1000) ∧
    (∀ (a b : List Char) (m s ms : Int), pyIntChars? a = some m →
        pyIntChars? b = some s → ':' ∉ a → ':' ∉ b →
        vttTimeCore (a ++ ':' :: b) ms
          = ((m * 60 + s : Int) : ℚ) + (ms : ℚ) / 1000) ∧
    (∀ (t : List Char) (ms : Int), (splitOnChar ':' t).length ≠ 2 →
        (splitOnChar ':' t).length ≠ 3 → vttTimeCore t ms = 0) := by
  refine ⟨?_, ?_, ?_, ?_, ?_, ?_, ?_, ?_, ?_, ?_, ?_, ?_⟩
  · intro a b m s hm hs ha hb
    show parseTimestampCore (a ++ ':' :: b) = _
    rw [parseTimestampCore, splitOnChar_append ':' a b ha,
      splitOnChar_of_not_mem ':' b hb]
    simp only [hm, hs]
  · intro a v hv ha
    show parseTimestampCore a = _
    rw [parseTimestampCore, splitOnChar_of_not_mem ':' a ha]
    simp only [hv]
  · intro cs hlen
    show parseTimestampCore cs = 0
    rw [parseTimestampCore]
    cases h : splitOnChar ':' cs with
    | nil => rfl
    | cons x xs =>
        cases xs with
        | nil => rw [h] at hlen; simp at hlen
        | cons y ys =>
            cases ys with
            | nil => rw [h] at hlen; simp at hlen
            | cons z zs => rfl
  · intro cs a b hsplit hfail
    show parseTimestampCore cs = 0
    rw [parseTimestampCore, hsplit]
    rcases hfail with h | h
    · cases hb2 : pyIntChars? b <;> simp [h, hb2]
    · cases ha2 : pyIntChars? a <;> simp [h, ha2]
  · intro cs a hsplit hfail
    show parseTimestampCore cs = 0
    rw [parseTimestampCore, hsplit]
    simp [hfail]
  · intro t msp ms ht hmsp hms
    show parseVttCore (t ++ '.' :: msp) = _
    rw [parseVttCore, splitOnChar_append '.' t msp ht,
      splitOnChar_of_not_mem '.' msp hmsp]
    simp only [hms]
  · intro t ht
    show parseVttCore t = _
    rw [parseVttCore, splitOnChar_of_not_mem '.' t ht]
  · intro cs hlen
    show parseVttCore cs = 0
    rw [parseVttCore]
    cases h : splitOnChar '.' cs with
    | nil => rfl
    | cons x xs =>
        cases xs with
        | nil => rw [h] at hlen; simp at hlen
        | cons y ys =>
            cases ys with
            | nil => rw [h] at hlen; simp at hlen
            | cons z zs => rfl
  · intro t msp ht hmsp hms
    show parseVttCore (t ++ '.' :: msp) = 0
    rw [parseVttCore, splitOnChar_append '.' t msp ht,
      splitOnChar_of_not_mem '.' msp hmsp]
    simp [hms]
  · intro a b c h m s ms hh hm hs ha hb hc
    rw [vttTimeCore,
      show a ++ ':' :: b ++ ':' :: c = a ++ ':' :: (b ++ ':' :: c) from by simp,
      splitOnChar_append ':' a (b ++ ':' :: c) ha,
      splitOnChar_append ':' b c hb, splitOnChar_of_not_mem ':' c hc]
    simp only [hh, hm, hs]
  · intro a b m s ms hm hs ha hb
    rw [vttTimeCore, splitOnChar_append ':' a b ha,
      splitOnChar_of_not_mem ':' b hb]
    simp only [hm, hs]
  · intro t ms h2 h3
    rw [vttTimeCore]
    cases h : splitOnChar ':' t with
    | nil => rfl
    | cons x xs =>
        cases xs with
        | nil => rfl
        | cons y ys =>
            cases ys with
            | nil => rw [h] at h2; simp at h2
            | cons z zs =>
                cases zs with
                | nil => rw [h] at h3; simp at h3
                | cons w ws => rfl

/-- Witness for `c10_timestamp_parsing_spec` at the spec's own examples:
`"1:30"`, `"45"` and `"02:03.456"`. -/
theorem c10_timestamp_parsing_spec_witness :
    pyIntChars? "1".data = some 1 ∧ pyIntChars? "30".data = some 30 ∧
    parse_timestamp_to_seconds "1:30" = ((1 * 60 + 30 : Int) : ℚ) ∧
    parse_timestamp_to_seconds "45" = ((45 : Int) : ℚ) ∧
    parse_vtt_timestamp "02:03.456" = vttTimeCore "02:03".data 456 := by
  refine ⟨by decide, by decide, ?_, ?_, ?_⟩
  · exact c10_timestamp_parsing_spec.1 "1".data "30".data 1 30 (by decide)
      (by decide) (by decide) (by decide)
  · exact c10_timestamp_parsing_spec.2.1 "45".data 45 (by decide) (by decide)
  · exact c10_timestamp_parsing_spec.2.2.2.2.2.1 "02:03".data "456".data 456
      (by decide) (by decide) (by decide)

/-! ## C1 — timestamp-window search -/

theorem frames_in_range_sorted (db : List VisualSearch.Frame) (v : Nat)
    (lo hi : ℚ) (mf : Option Nat) :
    List.Sorted VisualSearch.frameTsLE
      (VisualSearch._get_frames_in_time_range db v lo hi mf) := by
  simp only [VisualSearch._get_frames_in_time_range]
  have hs := List.sorted_insertionSort VisualSearch.frameTsLE
    (db.filter (fun f => f.video_id == v && decide (lo ≤ f.timestamp) &&
      decide (f.timestamp ≤ hi)))
  split
  · split
    · exact hs.sublist (List.take_sublist _ _)
    · exact hs
  · exact hs

theorem frames_in_range_subset (db : List VisualSearch.Frame) (v : Nat)
    (lo hi : ℚ) (mf : Option Nat) (f : VisualSearch.Frame)
    (hf : f ∈ VisualSearch._get_frames_in_time_range db v lo hi mf) :
    f ∈ db ∧ f.video_id = v ∧ lo ≤ f.timestamp ∧ f.timestamp ≤ hi := by
  simp only [VisualSearch._get_frames_in_time_range] at hf
  have hf' : f ∈ List.insertionSort VisualSearch.frameTsLE
      (db.filter (fun f => f.video_id == v && decide (lo ≤ f.timestamp) &&
        decide (f.timestamp ≤ hi))) := by
    split at hf
    · split at hf
      · exact List.mem_of_mem_take hf
      · exact hf
    · exact hf
  rw [List.mem_insertionSort] at hf'
  have h := List.mem_filter.mp hf'
  have h2 := h.2
  simp only [Bool.and_eq_true, beq_iff_eq, decide_eq_true_eq] at h2
  exact ⟨h.1, h2.1.1, h2.1.2, h2.2⟩

/-- **C1 (amended)**: for every frame table, video, target `t`, window
`w > 0` and limit, `search_by_timestamp` returns exactly the first `limit`
(by ascending timestamp) stored frames of that video whose timestamp lies in
`[max(0, t - w/2), t + w/2]`; each result carries score
`max(0, 1 - |timestamp - t| / (w/2))`, which lies in `[0, 1]`; the results
are ordered by timestamp ascending; whenever at most `limit` frames are in
range, every in-range frame appears; and (for truthy limits) at most `limit`
results are returned.  (On the spec's own example the range `[50, 70]`
contains only 2 of the 3 frames — see the counterexample.) -/
theorem c1_search_by_timestamp_correct (db : List VisualSearch.Frame)
    (video_id : Nat) (t w : ℚ) (limit : Nat) (hw : 0 < w) :
    (VisualSearch.search_by_timestamp db video_id t w limit).results
        = (VisualSearch._get_frames_in_time_range db video_id
            (max 0 (t - w / 2)) (t + w / 2) (some limit)).map
          (VisualSearch.mkTemporalResult t w) ∧
    (VisualSearch.search_by_timestamp db video_id t w limit).total_results
        = (VisualSearch.search_by_timestamp db video_id t w limit).results.length ∧
    (∀ r ∈ (VisualSearch.search_by_timestamp db video_id t w limit).results,
        r.score = max 0 (1 - |r.timestamp - t| / (w / 2)) ∧
        0 ≤ r.score ∧ r.score ≤ 1 ∧
        max 0 (t - w / 2) ≤ r.timestamp ∧ r.timestamp ≤ t + w / 2) ∧
    List.Sorted VisualSearch.trTsLE
      (VisualSearch.search_by_timestamp db video_id t w limit).results ∧
    (∀ f ∈ db, f.video_id = video_id → max 0 (t - w / 2) ≤ f.timestamp →
        f.timestamp ≤ t + w / 2 →
        (VisualSearch._get_frames_in_time_range db video_id
          (max 0 (t - w / 2)) (t + w / 2) none).length ≤ limit →
        f.id ∈ ((VisualSearch.search_by_timestamp db video_id t w limit).results.map
          (fun r => r.frame_id))) ∧
    (limit ≠ 0 →
      (VisualSearch.search_by_timestamp db video_id t w limit).results.length
        ≤ limit) := by
  have hw2 : (0 : ℚ) < w / 2 := by positivity
  have hsorted := frames_in_range_sorted db video_id (max 0 (t - w / 2))
    (t + w / 2) (some limit)
  have hmapsorted : List.Sorted VisualSearch.trTsLE
      ((VisualSearch._get_frames_in_time_range db video_id
        (max 0 (t - w / 2)) (t + w / 2) (some limit)).map
        (VisualSearch.mkTemporalResult t w)) :=
    hsorted.map _ (fun a b h => h)
  have hres : (VisualSearch.search_by_timestamp db video_id t w limit).results
      = (VisualSearch._get_frames_in_time_range db video_id
          (max 0 (t - w / 2)) (t + w / 2) (some limit)).map
        (VisualSearch.mkTemporalResult t w) :=
    hmapsorted.insertionSort_eq
  refine ⟨hres, rfl, ?_, ?_, ?_, ?_⟩
  · intro r hr
    rw [hres] at hr
    obtain ⟨f, hf, rfl⟩ := List.mem_map.mp hr
    obtain ⟨hdb, hv, hlo, hhi⟩ := frames_in_range_subset _ _ _ _ _ _ hf
    refine ⟨rfl, le_max_left _ _, ?_, hlo, hhi⟩
    show max 0 (1 - |f.timestamp - t| / (w / 2)) ≤ 1
    have hd : 0 ≤ |f.timestamp - t| / (w / 2) :=
      div_nonneg (abs_nonneg _) hw2.le
    apply max_le (by norm_num)
    linarith
  · rw [hres]
    exact hmapsorted
  · intro f hdb hv hlo hhi hlen
    rw [hres]
    have hfilter : f ∈ db.filter (fun f => f.video_id == video_id &&
        decide (max 0 (t - w / 2) ≤ f.timestamp) &&
        decide (f.timestamp ≤ t + w / 2)) := by
      refine List.mem_filter.mpr ⟨hdb, ?_⟩
      simp [hv, hlo, hhi]
    have hfull : f ∈ List.insertionSort VisualSearch.frameTsLE
        (db.filter (fun f => f.video_id == video_id &&
          decide (max 0 (t - w / 2) ≤ f.timestamp) &&
          decide (f.timestamp ≤ t + w / 2))) :=
      (List.mem_insertionSort _).mpr hfilter
    have hunl : VisualSearch._get_frames_in_time_range db video_id
        (max 0 (t - w / 2)) (t + w / 2) none
        = List.insertionSort VisualSearch.frameTsLE
          (db.filter (fun f => f.video_id == video_id &&
            decide (max 0 (t - w / 2) ≤ f.timestamp) &&
            decide (f.timestamp ≤ t + w / 2))) := rfl
    rw [hunl] at hlen
    by_cases h0 : limit = 0
    · exfalso
      rw [h0, Nat.le_zero, List.length_eq_zero] at hlen
      rw [hlen] at hfull
      exact absurd hfull (List.not_mem_nil f)
    · have hframes_eq : VisualSearch._get_frames_in_time_range db video_id
          (max 0 (t - w / 2)) (t + w / 2) (some limit)
          = List.insertionSort VisualSearch.frameTsLE
            (db.filter (fun f => f.video_id == video_id &&
              decide (max 0 (t - w / 2) ≤ f.timestamp) &&
              decide (f.timestamp ≤ t + w / 2))) := by
        show (if limit ≠ 0 then _ else _) = _
        rw [if_pos h0]
        exact List.take_of_length_le hlen
      rw [hframes_eq]
      exact List.mem_map.mpr ⟨VisualSearch.mkTemporalResult t w f,
        List.mem_map.mpr ⟨f, hfull, rfl⟩, rfl⟩
  · intro h0
    rw [hres, List.length_map]
    have htake : VisualSearch._get_frames_in_time_range db video_id
        (max 0 (t - w / 2)) (t + w / 2) (some limit)
        = List.take limit (List.insertionSort VisualSearch.frameTsLE
            (db.filter (fun f => f.video_id == video_id &&
              decide (max 0 (t - w / 2) ≤ f.timestamp) &&
              decide (f.timestamp ≤ t + w / 2)))) := by
      show (if limit ≠ 0 then _ else _) = _
      rw [if_pos h0]
    rw [htake]
    exact (List.length_take _ _).trans_le (min_le_left _ _)

/-- **C1 counterexample**: with frames at `[55, 65, 75]`, target `60` and
window `20`, the search range is `[max(0, 50), 70]`, frame `75` falls
outside it, and the code returns exactly **2** results (timestamps 55 and
65) — not the 3 the claim (and the repository's own unit test
`test_search_by_timestamp`) asserts. -/
theorem c1_example_counterexample :
    (VisualSearch.search_by_timestamp c1Frames 1 60 20 10).total_results = 2 ∧
    (VisualSearch.search_by_timestamp c1Frames 1 60 20 10).total_results ≠ 3 ∧
    ((VisualSearch.search_by_timestamp c1Frames 1 60 20 10).results.map
      (fun r => r.timestamp)) = [55, 65] ∧
    ¬((75 : ℚ) ≤ 60 + 20 / 2) := by
  have h2 : (VisualSearch.search_by_timestamp c1Frames 1 60 20 10).total_results
      = 2 := by with_unfolding_all rfl
  refine ⟨h2, ?_, ?_, by norm_num⟩
  · rw [h2]
    norm_num
  · with_unfolding_all rfl

/-- Witness for `c1_search_by_timestamp_correct` at the spec's example. -/
theorem c1_search_by_timestamp_correct_witness :
    (0 : ℚ) < 20 ∧
    (VisualSearch.search_by_timestamp c1Frames 1 60 20 10).results
      = (VisualSearch._get_frames_in_time_range c1Frames 1
          (max 0 (60 - 20 / 2)) (60 + 20 / 2) (some 10)).map
        (VisualSearch.mkTemporalResult 60 20) :=
  ⟨by decide, (c1_search_by_timestamp_correct c1Frames 1 60 20 10 (by decide)).1⟩

/-! ## C7 — deduplication and hybrid ranking -/

theorem updateSeen_ids (m : List VisualSearch.SearchResult)
    (r : VisualSearch.SearchResult) :
    (VisualSearch.updateSeen m r).map (fun e => e.frame_id) =
      (if r.frame_id ∈ m.map (fun e => e.frame_id)
       then m.map (fun e => e.frame_id)
       else m.map (fun e => e.frame_id) ++ [r.frame_id]) := by
  induction m with
  | nil => simp [VisualSearch.updateSeen]
  | cons x xs ih =>
      simp only [VisualSearch.updateSeen]
      by_cases hx : x.frame_id = r.frame_id
      · rw [if_pos hx]
        by_cases hs : x.score < r.score <;>
          simp [hs, hx, List.map_cons]
      · rw [if_neg hx]
        simp only [List.map_cons, ih]
        by_cases hm : r.frame_id ∈ xs.map (fun e => e.frame_id)
        · rw [if_pos hm, if_pos (List.mem_cons_of_mem _ hm)]
        · rw [if_neg hm, if_neg ?_]
          · simp
          · intro hmem
            rcases List.mem_cons.mp hmem with h | h
            · exact hx h.symm
            · exact hm h

theorem updateSeen_spec (m : List VisualSearch.SearchResult)
    (r : VisualSearch.SearchResult)
    (hN : (m.map (fun e => e.frame_id)).Nodup) :
    ∀ e ∈ VisualSearch.updateSeen m r,
      (e ∈ m ∧ (e.frame_id = r.frame_id → r.score ≤ e.score)) ∨
      (e = r ∧ ∀ x ∈ m, x.frame_id = r.frame_id → x.score ≤ r.score) := by
  induction m with
  | nil =>
      intro e he
      simp only [VisualSearch.updateSeen, List.mem_singleton] at he
      subst he
      exact Or.inr ⟨rfl, fun x hx => absurd hx (List.not_mem_nil x)⟩
  | cons x xs ih =>
      have hNx : x.frame_id ∉ xs.map (fun e => e.frame_id) :=
        (List.nodup_cons.mp hN).1
      have hNxs : (xs.map (fun e => e.frame_id)).Nodup :=
        (List.nodup_cons.mp hN).2
      intro e he
      simp only [VisualSearch.updateSeen] at he
      by_cases hx : x.frame_id = r.frame_id
      · rw [if_pos hx] at he
        rcases List.mem_cons.mp he with he | he
        · by_cases hs : x.score < r.score
          · rw [if_pos hs] at he
            subst he
            refine Or.inr ⟨rfl, ?_⟩
            intro y hy hyid
            rcases List.mem_cons.mp hy with hy | hy
            · exact hy ▸ hs.le
            · exact absurd (hyid.trans hx.symm ▸ List.mem_map_of_mem _ hy) hNx
          · rw [if_neg hs] at he
            subst he
            exact Or.inl ⟨List.mem_cons_self _ _, fun _ => le_of_not_lt hs⟩
        · refine Or.inl ⟨List.mem_cons_of_mem _ he, ?_⟩
          intro heid
          exact absurd (heid.trans hx.symm ▸ List.mem_map_of_mem _ he) hNx
      · rw [if_neg hx] at he
        rcases List.mem_cons.mp he with he | he
        · subst he
          exact Or.inl ⟨List.mem_cons_self _ _, fun h => absurd h hx⟩
        · rcases ih hNxs e he with ⟨hmem, hsc⟩ | ⟨herq, hall⟩
          · exact Or.inl ⟨List.mem_cons_of_mem _ hmem, hsc⟩
          · refine Or.inr ⟨herq, ?_⟩
            intro y hy hyid
            rcases List.mem_cons.mp hy with hy | hy
            · exact absurd (hy ▸ hyid) hx
            · exact hall y hy hyid

theorem dedup_foldl_invariant (rs : List VisualSearch.SearchResult) :
    ∀ (acc processed : List VisualSearch.SearchResult),
    (acc.map (fun e => e.frame_id)).Nodup →
    (∀ e ∈ acc, e ∈ processed ∧
        ∀ x ∈ processed, x.frame_id = e.frame_id → x.score ≤ e.score) →
    (∀ x ∈ processed, x.frame_id ∈ acc.map (fun e => e.frame_id)) →
    ((rs.foldl VisualSearch.updateSeen acc).map (fun e => e.frame_id)).Nodup ∧
    (∀ e ∈ rs.foldl VisualSearch.updateSeen acc, e ∈ processed ++ rs ∧
        ∀ x ∈ processed ++ rs, x.frame_id = e.frame_id → x.score ≤ e.score) ∧
    (∀ x ∈ processed ++ rs,
        x.frame_id ∈ (rs.foldl VisualSearch.updateSeen acc).map
          (fun e => e.frame_id)) := by
  induction rs with
  | nil =>
      intro acc processed hN hspec hcov
      simp only [List.foldl_nil, List.append_nil]
      exact ⟨hN, hspec, hcov⟩
  | cons r rs ih =>
      intro acc processed hN hspec hcov
      have hN' : ((VisualSearch.updateSeen acc r).map
          (fun e => e.frame_id)).Nodup := by
        rw [updateSeen_ids]
        by_cases hm : r.frame_id ∈ acc.map (fun e => e.frame_id)
        · rwa [if_pos hm]
        · rw [if_neg hm]
          refine hN.append (List.nodup_singleton _) ?_
          intro b hb hb2
          rw [List.mem_singleton] at hb2
          subst hb2
          exact hm hb
      have hspec' : ∀ e ∈ VisualSearch.updateSeen acc r, e ∈ processed ++ [r] ∧
          ∀ x ∈ processed ++ [r], x.frame_id = e.frame_id →
            x.score ≤ e.score := by
        intro e he
        rcases updateSeen_spec acc r hN e he with ⟨hmem, hsc⟩ | ⟨herq, hall⟩
        · obtain ⟨hmemp, hscp⟩ := hspec e hmem
          refine ⟨List.mem_append_left _ hmemp, ?_⟩
          intro x hx hxid
          rcases List.mem_append.mp hx with hx | hx
          · exact hscp x hx hxid
          · rw [List.mem_singleton] at hx
            subst hx
            exact hsc hxid.symm
        · subst herq
          refine ⟨List.mem_append_right _ (List.mem_singleton_self _), ?_⟩
          intro x hx hxid
          rcases List.mem_append.mp hx with hx | hx
          · obtain ⟨a, ha, haid⟩ := List.mem_map.mp (hcov x hx)
            obtain ⟨hap, hasc⟩ := hspec a ha
            have h1 : x.score ≤ a.score := hasc x hx haid.symm
            have h2 : a.score ≤ e.score := hall a ha (haid.trans hxid)
            exact h1.trans h2
          · rw [List.mem_singleton] at hx
            subst hx
            exact le_refl _
      have hcov' : ∀ x ∈ processed ++ [r],
          x.frame_id ∈ (VisualSearch.updateSeen acc r).map
            (fun e => e.frame_id) := by
        intro x hx
        rw [updateSeen_ids]
        by_cases hm : r.frame_id ∈ acc.map (fun e => e.frame_id)
        · rw [if_pos hm]
          rcases List.mem_append.mp hx with hx | hx
          · exact hcov x hx
          · rw [List.mem_singleton] at hx
            subst hx
            exact hm
        · rw [if_neg hm]
          rcases List.mem_append.mp hx with hx | hx
          · exact List.mem_append_left _ (hcov x hx)
          · rw [List.mem_singleton] at hx
            subst hx
            exact List.mem_append_right _ (List.mem_singleton_self _)
      have hmain := ih (VisualSearch.updateSeen acc r) (processed ++ [r])
        hN' hspec' hcov'
      have heq : (processed ++ [r]) ++ rs = processed ++ r :: rs := by
        rw [List.append_assoc]
        rfl
      rw [heq] at hmain
      exact hmain

theorem filter_orderedInsert_score (a : VisualSearch.SearchResult)
    (l : List VisualSearch.SearchResult) :
    (List.orderedInsert VisualSearch.scoreGE a l).filter
        (fun x => x.score == a.score)
      = a :: l.filter (fun x => x.score == a.score) := by
  induction l with
  | nil => simp [List.orderedInsert]
  | cons b bs ih =>
      by_cases h : VisualSearch.scoreGE a b
      · simp only [List.orderedInsert]
        rw [if_pos h]
        simp [List.filter_cons]
      · simp only [List.orderedInsert]
        rw [if_neg h]
        have hb : (b.score == a.score) = false := by
          rw [beq_eq_false_iff_ne]
          exact fun he => h (le_of_eq he)
        simp [List.filter_cons, hb, ih]

theorem filter_orderedInsert_ne (a : VisualSearch.SearchResult)
    (l : List VisualSearch.SearchResult) (s : ℚ) (hne : ¬(a.score = s)) :
    (List.orderedInsert VisualSearch.scoreGE a l).filter (fun x => x.score == s)
      = l.filter (fun x => x.score == s) := by
  have ha : (a.score == s) = false := by
    rw [beq_eq_false_iff_ne]
    exact hne
  induction l with
  | nil => simp [List.orderedInsert, ha]
  | cons b bs ih =>
      by_cases h : VisualSearch.scoreGE a b
      · simp only [List.orderedInsert]
        rw [if_pos h]
        simp [List.filter_cons, ha]
      · simp only [List.orderedInsert]
        rw [if_neg h]
        simp [List.filter_cons, ih]

theorem filter_insertionSort_score (l : List VisualSearch.SearchResult) (s : ℚ) :
    (List.insertionSort VisualSearch.scoreGE l).filter (fun x => x.score == s)
      = l.filter (fun x => x.score == s) := by
  induction l with
  | nil => rfl
  | cons a as ih =>
      simp only [List.insertionSort]
      by_cases h : a.score = s
      · subst h
        rw [filter_orderedInsert_score, ih]
        simp [List.filter_cons]
      · rw [filter_orderedInsert_ne _ _ _ h, ih]
        have ha : (a.score == s) = false := by
          rw [beq_eq_false_iff_ne]
          exact h
        simp [List.filter_cons, ha]

/-- **C7**: `_deduplicate_results` yields exactly one entry per frame id,
each kept entry being an input entry of that id with maximal score (every
id of the input is represented); the hybrid ranking sorts the deduplicated
entries by score descending with ties kept in first-occurrence order
(stability expressed by score-class filters being preserved by the sort) and
truncates to the requested `limit`; on the spec's example the id-1 entry
kept is the one with score 0.95. -/
theorem c7_deduplicate_and_rank (results : List VisualSearch.SearchResult)
    (limit : Nat) :
    ((VisualSearch._deduplicate_results results).map
      (fun e => e.frame_id)).Nodup ∧
    (∀ e ∈ VisualSearch._deduplicate_results results, e ∈ results ∧
        ∀ x ∈ results, x.frame_id = e.frame_id → x.score ≤ e.score) ∧
    (∀ x ∈ results, ∃ e ∈ VisualSearch._deduplicate_results results,
        e.frame_id = x.frame_id) ∧
    List.Sorted VisualSearch.scoreGE (VisualSearch.rank_results results limit) ∧
    (VisualSearch.rank_results results limit).length ≤ limit ∧
    (∀ s : ℚ, (List.insertionSort VisualSearch.scoreGE
          (VisualSearch._deduplicate_results results)).filter
          (fun e => e.score == s)
        = (VisualSearch._deduplicate_results results).filter
          (fun e => e.score == s)) ∧
    ((VisualSearch._deduplicate_results c7Example).map
      (fun e => (e.frame_id, e.score, e.payload)))
      = [(1, 95/100, "second"), (2, 7/10, "third")] := by
  obtain ⟨hN, hspec, hcov⟩ :=
    dedup_foldl_invariant results [] []
      (by simp) (by intro e he; exact absurd he (List.not_mem_nil e))
      (by intro x hx; exact absurd hx (List.not_mem_nil x))
  simp only [List.nil_append] at hspec hcov
  refine ⟨hN, hspec, ?_, ?_, ?_, fun s => filter_insertionSort_score _ s, ?_⟩
  · intro x hx
    obtain ⟨e, he, heid⟩ := List.mem_map.mp (hcov x hx)
    exact ⟨e, he, heid⟩
  · exact (List.sorted_insertionSort _ _).sublist (List.take_sublist _ _)
  · exact (List.length_take _ _).trans_le (min_le_left _ _)
  · with_unfolding_all rfl

/-- Witness for `c7_deduplicate_and_rank`: the spec example's first entry's
id is represented in the deduplicated output. -/
theorem c7_deduplicate_and_rank_witness :
    ∃ e ∈ VisualSearch._deduplicate_results c7Example, e.frame_id = 1 :=
  (c7_deduplicate_and_rank c7Example 2).2.2.1
    { frame_id := 1, score := 8/10, payload := "first" }
    (List.mem_cons_self _ _)

/-! ## C3 — no relevant context: templated answer, no LLM call -/

theorem retrieve_ok (env : RagChat.ChatEnv) (video_id : Nat) (iv : Bool)
    (hits : List RagChat.Hit) (vi : RagChat.VideoInfo)
    (hsearch : env.text_search = Except.ok hits)
    (hvid : env.videos video_id = some vi) :
    RagChat.retrieve_relevant_context env video_id iv = Except.ok
      { text_results := hits.filter
          (fun r => decide (RagChat.relevance_threshold ≤ r.score)),
        visual_results := [],
        combined_score :=
          if hits.filter (fun r => decide (RagChat.relevance_threshold ≤ r.score))
              = [] then 0
          else ((hits.filter (fun r =>
              decide (RagChat.relevance_threshold ≤ r.score))).map
              (fun r => r.score)).sum /
            (((hits.filter (fun r =>
              decide (RagChat.relevance_threshold ≤ r.score))).length : ℚ)),
        video_info := vi } := by
  simp only [RagChat.retrieve_relevant_context, hsearch, RagChat.get_video_info,
    hvid]

/-- **C3**: whenever retrieval succeeds but no hit passes the relevance
threshold (and the video exists), `chat` returns the templated
"couldn't find" response with an empty citations list, and
`generate_response` — hence the language model — is never invoked. -/
theorem c3_chat_no_results (env : RagChat.ChatEnv)
    (state : String → List RagChat.ChatMessage) (query : String)
    (video_id : Nat) (ocid : Option String) (iv : Bool)
    (hits : List RagChat.Hit) (vi : RagChat.VideoInfo)
    (hsearch : env.text_search = Except.ok hits)
    (hvid : env.videos video_id = some vi)
    (hfilter : hits.filter
      (fun r => decide (RagChat.relevance_threshold ≤ r.score)) = []) :
    ∃ out, RagChat.chat env state query video_id ocid iv = Except.ok out ∧
      out.citations = [] ∧ out.llm_called = false ∧
      out.response = RagChat.no_results_response query vi.title := by
  have hctx := retrieve_ok env video_id iv hits vi hsearch hvid
  rw [hfilter] at hctx
  simp only [if_pos rfl] at hctx
  simp only [RagChat.chat, hctx]
  refine ⟨_, rfl, ?_, ?_, ?_⟩ <;> simp

/-- Witness for `c3_chat_no_results` at a concrete environment. -/
theorem c3_chat_no_results_witness :
    okEmptyEnv.text_search = Except.ok [] ∧
    okEmptyEnv.videos 1 = some wVideo ∧
    (∃ out, RagChat.chat okEmptyEnv emptyState "anything" 1 none false
        = Except.ok out ∧
      out.citations = [] ∧ out.llm_called = false ∧
      out.response = RagChat.no_results_response "anything" wVideo.title) :=
  ⟨rfl, rfl,
    c3_chat_no_results okEmptyEnv emptyState "anything" 1 none false [] wVideo
      rfl rfl rfl⟩

/-! ## C4 — error handling at the chat boundary -/

/-- **C4 counterexample**: when the video row is missing, the
`except Exception` handler itself calls `get_video_info`, whose
`ValueError` escapes `chat` — an unhandled exception reaches the caller,
so "for every input, chat returns a ChatResponse" is false. -/
theorem c4_missing_video_raises :
    RagChat.chat noVideoEnv emptyState "q" 1 none false
      = Except.error "Video 1 not found" := by
  with_unfolding_all rfl

/-- **C4 (amended)**: provided the video row exists, `chat` always returns a
`ChatResponse`-shaped result instead of propagating an exception: an
internal retrieval failure yields the literal error response with empty
citations (and no LLM call), and a language-model failure is absorbed by
`generate_response`, whose literal apology string becomes the response.
When the video row is missing, the error handler itself re-raises — see the
counterexample. -/
theorem c4_chat_total_when_video_exists (env : RagChat.ChatEnv)
    (state : String → List RagChat.ChatMessage) (query : String)
    (video_id : Nat) (ocid : Option String) (iv : Bool)
    (vi : RagChat.VideoInfo) (hvid : env.videos video_id = some vi) :
    (∃ out, RagChat.chat env state query video_id ocid iv = Except.ok out) ∧
    (∀ e, env.text_search = Except.error e →
      ∃ out, RagChat.chat env state query video_id ocid iv = Except.ok out ∧
        out.response =
          "I encountered an error while processing your question: " ++
            ("Error retrieving context: " ++ e) ∧
        out.citations = [] ∧ out.llm_called = false) ∧
    (∀ m hits, env.llm = Except.error m → env.text_search = Except.ok hits →
      hits.filter (fun r => decide (RagChat.relevance_threshold ≤ r.score))
        ≠ [] →
      ∃ out, RagChat.chat env state query video_id ocid iv = Except.ok out ∧
        out.llm_called = true ∧
        out.response =
          "I apologize, but I\x27m having trouble generating a response right now. Error: "
            ++ m) := by
  cases htx : env.text_search with
  | error e' =>
      have hctx : RagChat.retrieve_relevant_context env video_id iv
          = Except.error ("Error retrieving context: " ++ e') := by
        simp only [RagChat.retrieve_relevant_context, htx]
      refine ⟨?_, ?_, ?_⟩
      · simp only [RagChat.chat, hctx, RagChat.get_video_info, hvid]
        exact ⟨_, rfl⟩
      · intro e he
        obtain rfl : e' = e := Except.error.inj he
        simp only [RagChat.chat, hctx, RagChat.get_video_info, hvid]
        exact ⟨_, rfl, rfl, rfl, rfl⟩
      · intro m hits _ hok _
        exact absurd hok (by simp)
  | ok hits' =>
      have hctx := retrieve_ok env video_id iv hits' vi htx hvid
      refine ⟨?_, ?_, ?_⟩
      · simp only [RagChat.chat, hctx]
        exact ⟨_, rfl⟩
      · intro e he
        exact absurd he (by simp)
      · intro m hits hllm hok hne
        obtain rfl : hits' = hits := Except.ok.inj hok
        simp only [RagChat.chat, hctx]
        have hcond : ¬(hits'.filter
            (fun r => decide (RagChat.relevance_threshold ≤ r.score)) = [] ∧
            True) := fun h => hne h.1
        rw [if_neg hcond]
        refine ⟨_, rfl, rfl, ?_⟩
        simp [RagChat.generate_response, hllm]

/-- Witness for `c4_chat_total_when_video_exists`: with one relevant hit and
a failing OpenAI call, `chat` still returns a result whose response is the
literal apology string. -/
theorem c4_chat_total_when_video_exists_witness :
    llmFailEnv.videos 1 = some wVideo ∧
    llmFailEnv.llm = Except.error "rate limit" ∧
    (∃ out, RagChat.chat llmFailEnv emptyState "q" 1 none false
        = Except.ok out ∧
      out.llm_called = true ∧
      out.response =
        "I apologize, but I\x27m having trouble generating a response right now. Error: "
          ++ "rate limit") :=
  ⟨rfl, rfl,
    (c4_chat_total_when_video_exists llmFailEnv emptyState "q" 1 none false
        wVideo rfl).2.2 "rate limit" [demoHit] rfl rfl
      (by with_unfolding_all decide)⟩

/-! ## C9 — bounded conversation history -/

theorem truncateHistory_spec (old : List RagChat.ChatMessage)
    (u a : RagChat.ChatMessage) :
    (RagChat.truncateHistory (old ++ [u, a])).length ≤ 10 ∧
    (∃ pre, RagChat.truncateHistory (old ++ [u, a]) = pre ++ [u, a]) ∧
    List.IsSuffix (RagChat.truncateHistory (old ++ [u, a])) (old ++ [u, a]) ∧
    (10 < old.length + 2 →
      (RagChat.truncateHistory (old ++ [u, a])).length = 10) := by
  have hlen : (old ++ [u, a]).length = old.length + 2 := by
    simp [List.length_append]
  rw [RagChat.truncateHistory]
  by_cases h : 10 < (old ++ [u, a]).length
  · rw [if_pos h]
    rw [hlen] at h
    refine ⟨?_, ?_, ?_, ?_⟩
    · rw [List.length_drop, hlen]
      omega
    · rw [List.drop_append_of_le_length (by rw [hlen] at *; omega)]
      exact ⟨_, rfl⟩
    · exact List.drop_suffix _ _
    · intro _
      rw [List.length_drop, hlen]
      omega
  · rw [if_neg h]
    rw [hlen] at h
    refine ⟨?_, ⟨old, rfl⟩, List.suffix_rfl, ?_⟩
    · rw [hlen]
      omega
    · intro hbig
      omega

/-- **C9 counterexample**: a `chat` call that hits the internal error
handler (here: the embedding search raises) returns normally but leaves the
stored history unchanged — the user and assistant turns of that call are
*not* appended, so "after every chat call ... the user turn and assistant
turn of that call have been appended" is false. -/
theorem c9_error_path_skips_history :
    ∃ out, RagChat.chat searchFailEnv seededState "q" 1 (some "conv1") false
        = Except.ok out ∧
      out.conversations "conv1" = seededState "conv1" ∧
      (∀ msg ∈ out.conversations "conv1", msg.content ≠ "q") := by
  refine ⟨_, rfl, rfl, ?_⟩
  intro msg hmsg
  simp [seededState] at hmsg
  subst hmsg
  decide

/-- **C9 (amended)**: after every `chat` call that does not hit the internal
error handler (retrieval succeeded and the video exists), the stored history
of the used conversation id has at most 10 messages, ends with the user turn
and assistant turn of that call, is a suffix of the previous history plus
those two turns (so on truncation the oldest messages are dropped first and
exactly the most recent 10 are kept — FIFO eviction), and no other
conversation's history changes.  A call that fails internally leaves the
store untouched (see the counterexample). -/
theorem c9_history_update (env : RagChat.ChatEnv)
    (state : String → List RagChat.ChatMessage) (query : String)
    (video_id : Nat) (ocid : Option String) (iv : Bool)
    (hits : List RagChat.Hit) (vi : RagChat.VideoInfo)
    (hsearch : env.text_search = Except.ok hits)
    (hvid : env.videos video_id = some vi) :
    ∃ out, RagChat.chat env state query video_id ocid iv = Except.ok out ∧
      (out.conversations out.conversation_id).length ≤ 10 ∧
      (∃ pre, out.conversations out.conversation_id
        = pre ++ [userTurn query env.now,
                  assistantTurn out.response out.citations env.now]) ∧
      List.IsSuffix (out.conversations out.conversation_id)
        (state out.conversation_id ++
          [userTurn query env.now,
           assistantTurn out.response out.citations env.now]) ∧
      (10 < (state out.conversation_id).length + 2 →
        (out.conversations out.conversation_id).length = 10) ∧
      (∀ c, c ≠ out.conversation_id → out.conversations c = state c) := by
  have hctx := retrieve_ok env video_id iv hits vi hsearch hvid
  simp only [RagChat.chat, hctx]
  refine ⟨_, rfl, ?_, ?_, ?_, ?_, ?_⟩ <;>
    simp only [RagChat.updateStore_same]
  · exact (truncateHistory_spec _ _ _).1
  · exact (truncateHistory_spec _ _ _).2.1
  · exact (truncateHistory_spec _ _ _).2.2.1
  · exact (truncateHistory_spec _ _ _).2.2.2
  · intro c hc
    exact RagChat.updateStore_other _ _ _ _ hc

/-- Witness for `c9_history_update` at a concrete environment and seeded
store. -/
theorem c9_history_update_witness :
    ∃ out, RagChat.chat okEmptyEnv seededState "q" 1 (some "conv1") false
        = Except.ok out ∧
      (out.conversations out.conversation_id).length ≤ 10 ∧
      (∃ pre, out.conversations out.conversation_id
        = pre ++ [userTurn "q" okEmptyEnv.now,
                  assistantTurn out.response out.citations okEmptyEnv.now]) ∧
      List.IsSuffix (out.conversations out.conversation_id)
        (seededState out.conversation_id ++
          [userTurn "q" okEmptyEnv.now,
           assistantTurn out.response out.citations okEmptyEnv.now]) ∧
      (10 < (seededState out.conversation_id).length + 2 →
        (out.conversations out.conversation_id).length = 10) ∧
      (∀ c, c ≠ out.conversation_id → out.conversations c = seededState c) :=
  c9_history_update okEmptyEnv seededState "q" 1 (some "conv1") false [] wVideo
    rfl rfl
